import Mathlib

/-!
Verification of the snow-drift transport core of the IND320 project.

The definitions below are a shallow embedding of the Python functions in
`src/pages/8_snow_drift.py` (and of the duplicate copy inside `app()` in
`src/pages/3_Advanced_Tools/1_Snow_drift.py`): floating-point arithmetic is
modelled by exact real arithmetic, Python `%` on floats by `fmod` below,
Python `**` by `Real.rpow`, and the Python dict returned by
`compute_snow_transport` by the record `TransportResult`.
-/

open scoped Real

/-- Python float modulo: `x % y = x - y * floor (x / y)` (sign follows `y`). -/
noncomputable def fmod (x y : ℝ) : ℝ := x - y * ⌊x / y⌋

/-- Embedding of `compute_Qupot` (src/pages/8_snow_drift.py, lines 78-79):
`sum((u ** 3.8) * dt for u in hourly_wind_speeds) / 233847`. -/
noncomputable def compute_Qupot (hourly_wind_speeds : List ℝ) (dt : ℝ := 3600) : ℝ :=
  (hourly_wind_speeds.map (fun u => u ^ (3.8 : ℝ) * dt)).sum / 233847

/-- Embedding of `sector_index` (src/pages/8_snow_drift.py, lines 81-82):
`int(((direction + 11.25) % 360) // 22.5)`.  The argument of `int` is a
non-negative integral float, so the conversion is the floor. -/
noncomputable def sector_index (direction : ℝ) : ℤ :=
  ⌊fmod (direction + 11.25) 360 / 22.5⌋

/-- Embedding of `compute_sector_transport` (src/pages/8_snow_drift.py,
lines 84-89): a 16-bin accumulator updated in place over `zip(speeds, dirs)`. -/
noncomputable def compute_sector_transport (hourly_wind_speeds hourly_wind_dirs : List ℝ)
    (dt : ℝ := 3600) : List ℝ :=
  (hourly_wind_speeds.zip hourly_wind_dirs).foldl
    (fun sectors ud =>
      sectors.set (sector_index ud.2).toNat
        (sectors.getD (sector_index ud.2).toNat 0 + ud.1 ^ (3.8 : ℝ) * dt / 233847))
    (List.replicate 16 0)

/-- The record returned by `compute_snow_transport` (the Python dict with keys
`Qupot (kg/m)`, `Qspot (kg/m)`, `Srwe (mm)`, `Qinf (kg/m)`, `Qt (kg/m)`,
`Control`). -/
structure TransportResult where
  Qupot : ℝ
  Qspot : ℝ
  Srwe : ℝ
  Qinf : ℝ
  Qt : ℝ
  control : String

/-- Embedding of `compute_snow_transport` (src/pages/8_snow_drift.py,
lines 91-103). -/
noncomputable def compute_snow_transport (T F theta Swe : ℝ) (hourly_wind_speeds : List ℝ)
    (dt : ℝ := 3600) : TransportResult :=
  let Qupot := compute_Qupot hourly_wind_speeds dt
  let Qspot := 0.5 * T * Swe
  let Srwe := theta * Swe
  let Qinf := if Qupot > Qspot then 0.5 * T * Srwe else Qupot
  let control := if Qupot > Qspot then "Snowfall controlled" else "Wind controlled"
  let Qt := Qinf * (1 - (0.14 : ℝ) ^ (F / T))
  { Qupot := Qupot, Qspot := Qspot, Srwe := Srwe,
    Qinf := Qinf, Qt := Qt, control := control }

/-! ### Properties of `fmod` -/

lemma fmod_eq_mul_fract (x y : ℝ) (hy : y ≠ 0) : fmod x y = y * Int.fract (x / y) := by
  have h : y * (x / y) = x := by field_simp
  unfold fmod
  rw [Int.fract, mul_sub, h]

lemma fmod_nonneg (x y : ℝ) (hy : 0 < y) : 0 ≤ fmod x y := by
  rw [fmod_eq_mul_fract x y hy.ne']
  exact mul_nonneg hy.le (Int.fract_nonneg _)

lemma fmod_lt (x y : ℝ) (hy : 0 < y) : fmod x y < y := by
  rw [fmod_eq_mul_fract x y hy.ne']
  calc y * Int.fract (x / y) < y * 1 := mul_lt_mul_of_pos_left (Int.fract_lt_one _) hy
    _ = y := mul_one y

lemma fmod_add_int_mul (x y : ℝ) (k : ℤ) (hy : 0 < y) :
    fmod (x + y * (k : ℝ)) y = fmod x y := by
  rw [fmod_eq_mul_fract _ y hy.ne', fmod_eq_mul_fract x y hy.ne']
  have h : (x + y * (k : ℝ)) / y = x / y + (k : ℝ) := by
    field_simp
    ring
  rw [h, Int.fract_add_int]

lemma fmod_eq_self (x y : ℝ) (h0 : 0 ≤ x) (hxy : x < y) : fmod x y = x := by
  have hy : 0 < y := lt_of_le_of_lt h0 hxy
  have hfl : ⌊x / y⌋ = 0 := by
    rw [Int.floor_eq_zero_iff, Set.mem_Ico]
    exact ⟨div_nonneg h0 hy.le, (div_lt_one hy).mpr hxy⟩
  unfold fmod
  rw [hfl]
  simp

/-! ### Bounds on `sector_index` -/

lemma sector_index_nonneg (d : ℝ) : 0 ≤ sector_index d := by
  unfold sector_index
  exact Int.floor_nonneg.mpr (div_nonneg (fmod_nonneg _ _ (by norm_num)) (by norm_num))

lemma sector_index_lt (d : ℝ) : sector_index d < 16 := by
  unfold sector_index
  rw [Int.floor_lt]
  have h := fmod_lt (d + 11.25) 360 (by norm_num)
  push_cast
  rw [div_lt_iff₀ (by norm_num : (0:ℝ) < 22.5)]
  norm_num
  linarith

/-- C7: for every real direction value, `sector_index` returns an integer in 0..15 — so the
sector update in `compute_sector_transport` never indexes out of bounds — and it returns
bin 0 exactly when the mod-360-normalized direction lies in [348.75, 360) ∪ [0, 11.25). -/
theorem sector_index_range_and_north_bin (d : ℝ) :
    0 ≤ sector_index d ∧ sector_index d ≤ 15 ∧
    (sector_index d = 0 ↔
      (348.75 ≤ fmod d 360 ∧ fmod d 360 < 360) ∨
      (0 ≤ fmod d 360 ∧ fmod d 360 < 11.25)) := by
  refine ⟨sector_index_nonneg d, by have := sector_index_lt d; omega, ?_⟩
  have h360 : (0:ℝ) < 360 := by norm_num
  have hm0 : 0 ≤ fmod (d + 11.25) 360 := fmod_nonneg _ _ h360
  have hd0 : 0 ≤ fmod d 360 := fmod_nonneg _ _ h360
  have hd1 : fmod d 360 < 360 := fmod_lt _ _ h360
  have hiff : sector_index d = 0 ↔ fmod (d + 11.25) 360 < 22.5 := by
    unfold sector_index
    rw [Int.floor_eq_zero_iff, Set.mem_Ico, div_lt_one (by norm_num : (0:ℝ) < 22.5)]
    constructor
    · exact fun h => h.2
    · exact fun h => ⟨div_nonneg hm0 (by norm_num), h⟩
  have key : fmod (d + 11.25) 360 = fmod (fmod d 360 + 11.25) 360 := by
    have hrw : d + 11.25 = (fmod d 360 + 11.25) + 360 * ((⌊d / 360⌋ : ℤ) : ℝ) := by
      unfold fmod; ring
    rw [hrw, fmod_add_int_mul _ _ _ h360]
  rw [hiff, key]
  rcases lt_or_le (fmod d 360) 348.75 with hc | hc
  · rw [fmod_eq_self _ _ (by linarith) (by linarith)]
    constructor
    · intro h
      exact Or.inr ⟨hd0, by linarith⟩
    · rintro (⟨h1, _⟩ | ⟨_, h2⟩)
      · linarith
      · linarith
  · have hsplit : fmod (fmod d 360 + 11.25) 360 = fmod d 360 + 11.25 - 360 := by
      have hrw : fmod d 360 + 11.25 = (fmod d 360 + 11.25 - 360) + 360 * ((1 : ℤ) : ℝ) := by
        push_cast; ring
      conv_lhs => rw [hrw]
      rw [fmod_add_int_mul _ _ _ h360, fmod_eq_self _ _ (by linarith) (by linarith)]
    rw [hsplit]
    constructor
    · intro _
      exact Or.inl ⟨hc, hd1⟩
    · intro _
      linarith

/-! ### Regime decision (C1) -/

/-- C1: for every Swe ≥ 0, T > 0, θ ∈ [0,1] and list of non-negative wind speeds,
`compute_snow_transport` compares `Qupot` with `Qspot = 0.5·T·Swe`: if `Qupot > Qspot` the
result is snowfall controlled with `Qinf = 0.5·T·Srwe` (`Srwe = θ·Swe`); otherwise it is
wind controlled with `Qinf = Qupot`. -/
theorem compute_snow_transport_regime (T F theta Swe dt : ℝ) (speeds : List ℝ)
    (hSwe : 0 ≤ Swe) (hT : 0 < T) (hth0 : 0 ≤ theta) (hth1 : theta ≤ 1)
    (hsp : ∀ u ∈ speeds, 0 ≤ u) :
    (compute_snow_transport T F theta Swe speeds dt).Qupot = compute_Qupot speeds dt ∧
    (compute_snow_transport T F theta Swe speeds dt).Qspot = 0.5 * T * Swe ∧
    (compute_snow_transport T F theta Swe speeds dt).Srwe = theta * Swe ∧
    (compute_Qupot speeds dt > 0.5 * T * Swe →
      (compute_snow_transport T F theta Swe speeds dt).control = "Snowfall controlled" ∧
      (compute_snow_transport T F theta Swe speeds dt).Qinf = 0.5 * T * (theta * Swe)) ∧
    (¬ compute_Qupot speeds dt > 0.5 * T * Swe →
      (compute_snow_transport T F theta Swe speeds dt).control = "Wind controlled" ∧
      (compute_snow_transport T F theta Swe speeds dt).Qinf = compute_Qupot speeds dt) := by
  unfold compute_snow_transport
  by_cases h : compute_Qupot speeds dt > 0.5 * T * Swe <;>
    simp [h]

/-- Witness for C1 at T = 1, F = 1, θ = 0, Swe = 0, speeds = [], dt = 3600. -/
theorem compute_snow_transport_regime_witness :
    (0:ℝ) ≤ 0 ∧ (0:ℝ) < 1 ∧ (0:ℝ) ≤ 0 ∧ (0:ℝ) ≤ 1 ∧ (∀ u ∈ ([] : List ℝ), 0 ≤ u) ∧
    ((compute_snow_transport 1 1 0 0 [] 3600).Qupot = compute_Qupot [] 3600 ∧
     (compute_snow_transport 1 1 0 0 [] 3600).Qspot = 0.5 * 1 * 0 ∧
     (compute_snow_transport 1 1 0 0 [] 3600).Srwe = 0 * 0 ∧
     (compute_Qupot [] 3600 > 0.5 * 1 * 0 →
       (compute_snow_transport 1 1 0 0 [] 3600).control = "Snowfall controlled" ∧
       (compute_snow_transport 1 1 0 0 [] 3600).Qinf = 0.5 * 1 * (0 * 0)) ∧
     (¬ compute_Qupot [] 3600 > 0.5 * 1 * 0 →
       (compute_snow_transport 1 1 0 0 [] 3600).control = "Wind controlled" ∧
       (compute_snow_transport 1 1 0 0 [] 3600).Qinf = compute_Qupot [] 3600)) :=
  ⟨le_refl 0, one_pos, le_refl 0, zero_le_one, by simp,
   compute_snow_transport_regime 1 1 0 0 3600 []
     (le_refl 0) one_pos (le_refl 0) zero_le_one (by simp)⟩

/-! ### Zero-wind behaviour (C2) -/

lemma compute_Qupot_zero (speeds : List ℝ) (dt : ℝ) (hzero : ∀ u ∈ speeds, u = 0) :
    compute_Qupot speeds dt = 0 := by
  unfold compute_Qupot
  rw [List.sum_eq_zero, zero_div]
  intro x hx
  rcases List.mem_map.mp hx with ⟨u, hu, rfl⟩
  rw [hzero u hu, Real.zero_rpow (by norm_num : (3.8:ℝ) ≠ 0), zero_mul]

/-- C2 counterexample: with T = 2, F = 2, θ = 1, Swe = 1 > 0 and the single zero wind speed,
`Qupot = 0 ≤ Qspot = 1`, so the code takes the else branch: the control label is
"Wind controlled" (not "Snowfall controlled" as claimed) and `Qinf = 0`, not
`0.5·T·θ·Swe = 1`. -/
theorem zero_wind_claim_counterexample :
    (compute_snow_transport 2 2 1 1 [0] 3600).control = "Wind controlled" ∧
    ¬ ((compute_snow_transport 2 2 1 1 [0] 3600).control = "Snowfall controlled" ∧
       (compute_snow_transport 2 2 1 1 [0] 3600).Qinf = 0.5 * 2 * (1 * 1)) := by
  have hq : compute_Qupot [(0:ℝ)] 3600 = 0 := compute_Qupot_zero _ _ (by simp)
  unfold compute_snow_transport
  norm_num [hq]

/-- C2 amended: with all wind speeds 0 (and Swe > 0, T > 0, θ ∈ [0,1]),
`compute_snow_transport` yields `Qupot = 0`, control = "Wind controlled" (the else branch,
since `0 ≤ Qspot`), and `Qinf = Qupot = 0`. -/
theorem zero_wind_amended (T F theta Swe dt : ℝ) (speeds : List ℝ)
    (hzero : ∀ u ∈ speeds, u = 0) (hT : 0 < T) (hSwe : 0 < Swe)
    (hth0 : 0 ≤ theta) (hth1 : theta ≤ 1) :
    (compute_snow_transport T F theta Swe speeds dt).Qupot = 0 ∧
    (compute_snow_transport T F theta Swe speeds dt).control = "Wind controlled" ∧
    (compute_snow_transport T F theta Swe speeds dt).Qinf = 0 := by
  have hq : compute_Qupot speeds dt = 0 := compute_Qupot_zero _ _ hzero
  have hnneg : ¬ (0.5 * T * Swe < 0) := not_lt.mpr (by positivity)
  have hns : ¬ compute_Qupot speeds dt > 0.5 * T * Swe := by
    rw [hq]
    exact fun h => hnneg h
  unfold compute_snow_transport
  simp [hns, hq, hnneg]

/-- Witness for the amended C2 at T = 2, F = 2, θ = 1, Swe = 1, speeds = [0], dt = 3600. -/
theorem zero_wind_amended_witness :
    (∀ u ∈ ([0] : List ℝ), u = 0) ∧ (0:ℝ) < 2 ∧ (0:ℝ) < 1 ∧ (0:ℝ) ≤ 1 ∧ (1:ℝ) ≤ 1 ∧
    ((compute_snow_transport 2 2 1 1 [0] 3600).Qupot = 0 ∧
     (compute_snow_transport 2 2 1 1 [0] 3600).control = "Wind controlled" ∧
     (compute_snow_transport 2 2 1 1 [0] 3600).Qinf = 0) :=
  ⟨by simp, by norm_num, one_pos, zero_le_one, le_refl 1,
   zero_wind_amended 2 2 1 1 3600 [0] (by simp) (by norm_num) one_pos zero_le_one (le_refl 1)⟩

/-! ### Regime threshold (C3) -/

lemma compute_Qupot_one_233847 : compute_Qupot [(1:ℝ)] 233847 = 1 := by
  unfold compute_Qupot
  rw [List.map_singleton, List.sum_singleton, Real.one_rpow]
  norm_num

/-- C3 counterexample: with T = 2, Swe = 1, θ = 0.5, speeds = [1], dt = 233847 we get
`Qupot = 1 = Qspot` exactly, yet the code (taking the else branch) assigns `Qinf = Qupot = 1`
while the snowfall-controlled assignment `0.5·T·θ·Swe` is 0.5: the two branches do not agree
at the threshold. -/
theorem threshold_agreement_counterexample :
    (compute_snow_transport 2 2 0.5 1 [1] 233847).Qupot =
      (compute_snow_transport 2 2 0.5 1 [1] 233847).Qspot ∧
    (compute_snow_transport 2 2 0.5 1 [1] 233847).Qinf ≠ 0.5 * 2 * (0.5 * 1) := by
  unfold compute_snow_transport
  norm_num [compute_Qupot_one_233847]

/-- C3 amended: at the threshold `Qupot = Qspot` the snowfall-controlled assignment equals
`θ` times the wind-controlled one, so the two branch values of `Qinf` agree when `θ = 1`
(the counterexample shows they differ for θ < 1). -/
theorem threshold_agreement_amended (T F theta Swe dt : ℝ) (speeds : List ℝ)
    (hthr : compute_Qupot speeds dt = 0.5 * T * Swe) :
    0.5 * T * (theta * Swe) = theta * compute_Qupot speeds dt ∧
    (theta = 1 →
      (compute_snow_transport T F theta Swe speeds dt).Qinf = compute_Qupot speeds dt ∧
      0.5 * T * (theta * Swe) = compute_Qupot speeds dt) := by
  constructor
  · rw [hthr]; ring
  · intro htheta
    subst htheta
    unfold compute_snow_transport
    rw [hthr]
    simp [lt_irrefl]

/-- Witness for the amended C3 at T = 2, F = 1, θ = 1, Swe = 1, speeds = [1], dt = 233847. -/
theorem threshold_agreement_amended_witness :
    compute_Qupot [(1:ℝ)] 233847 = 0.5 * 2 * 1 ∧
    (0.5 * 2 * ((1:ℝ) * 1) = 1 * compute_Qupot [(1:ℝ)] 233847 ∧
     ((1:ℝ) = 1 →
       (compute_snow_transport 2 1 1 1 [1] 233847).Qinf = compute_Qupot [(1:ℝ)] 233847 ∧
       0.5 * 2 * ((1:ℝ) * 1) = compute_Qupot [(1:ℝ)] 233847)) :=
  ⟨by rw [compute_Qupot_one_233847]; norm_num,
   threshold_agreement_amended 2 1 1 1 233847 [1] (by rw [compute_Qupot_one_233847]; norm_num)⟩

/-! ### Division by T = 0 (C5) -/

/-- Python raises `ZeroDivisionError` at the division `F / T` (line 101) when `T = 0`; in the
spec's error taxonomy (§7) this arithmetic edge case is the `DomainError`. -/
inductive SnowDriftError
  | DomainError

/-- Division as Python executes it: it fails on a zero denominator instead of returning a
value, so the embedding returns `Except`. -/
noncomputable def checked_div (x y : ℝ) : Except SnowDriftError ℝ :=
  if y = 0 then Except.error SnowDriftError.DomainError else Except.ok (x / y)

/-- `compute_snow_transport` with its one fallible operation — the division `F / T` on
src/pages/8_snow_drift.py line 101 — made explicit. -/
noncomputable def compute_snow_transport_checked (T F theta Swe : ℝ)
    (hourly_wind_speeds : List ℝ) (dt : ℝ := 3600) : Except SnowDriftError TransportResult :=
  let Qupot := compute_Qupot hourly_wind_speeds dt
  let Qspot := 0.5 * T * Swe
  let Srwe := theta * Swe
  let Qinf := if Qupot > Qspot then 0.5 * T * Srwe else Qupot
  let control := if Qupot > Qspot then "Snowfall controlled" else "Wind controlled"
  (checked_div F T).map fun (e : ℝ) =>
    { Qupot := Qupot, Qspot := Qspot, Srwe := Srwe,
      Qinf := Qinf, Qt := Qinf * (1 - (0.14 : ℝ) ^ e), control := control }

lemma compute_snow_transport_checked_ok (T F theta Swe dt : ℝ) (speeds : List ℝ)
    (hT : T ≠ 0) :
    compute_snow_transport_checked T F theta Swe speeds dt =
      Except.ok (compute_snow_transport T F theta Swe speeds dt) := by
  unfold compute_snow_transport_checked checked_div compute_snow_transport
  simp [hT, Except.map]

/-- C5: called with T = 0 (and F > 0), `compute_snow_transport` fails with a `DomainError`
at the division `F / T` rather than producing a value (no `inf`/`NaN` result exists). -/
theorem t_zero_yields_domain_error (F theta Swe dt : ℝ) (speeds : List ℝ) (hF : 0 < F) :
    compute_snow_transport_checked 0 F theta Swe speeds dt =
      Except.error SnowDriftError.DomainError := by
  unfold compute_snow_transport_checked checked_div
  simp [Except.map]

/-- Witness for C5 at F = 1, θ = 0, Swe = 0, speeds = [], dt = 3600. -/
theorem t_zero_yields_domain_error_witness :
    (0:ℝ) < 1 ∧
    compute_snow_transport_checked 0 1 0 0 [] 3600 =
      Except.error SnowDriftError.DomainError :=
  ⟨one_pos, t_zero_yields_domain_error 1 0 0 3600 [] one_pos⟩

/-! ### Saturation bounds (C6) -/

lemma Qt_eq_Qinf_mul (T F theta Swe dt : ℝ) (speeds : List ℝ) :
    (compute_snow_transport T F theta Swe speeds dt).Qt =
      (compute_snow_transport T F theta Swe speeds dt).Qinf * (1 - (0.14 : ℝ) ^ (F / T)) :=
  rfl

lemma Qupot_nonneg (speeds : List ℝ) (dt : ℝ) (hdt : 0 ≤ dt) (hsp : ∀ u ∈ speeds, 0 ≤ u) :
    0 ≤ compute_Qupot speeds dt := by
  unfold compute_Qupot
  apply div_nonneg _ (by norm_num)
  apply List.sum_nonneg
  intro x hx
  rcases List.mem_map.mp hx with ⟨u, hu, rfl⟩
  exact mul_nonneg (Real.rpow_nonneg (hsp u hu) _) hdt

lemma Qinf_nonneg (T F theta Swe dt : ℝ) (speeds : List ℝ)
    (hT : 0 ≤ T) (hth : 0 ≤ theta) (hSwe : 0 ≤ Swe) (hdt : 0 ≤ dt)
    (hsp : ∀ u ∈ speeds, 0 ≤ u) :
    0 ≤ (compute_snow_transport T F theta Swe speeds dt).Qinf := by
  unfold compute_snow_transport
  by_cases h : compute_Qupot speeds dt > 0.5 * T * Swe
  · simp only [h, if_true]
    positivity
  · simp only [h, if_false]
    exact Qupot_nonneg speeds dt hdt hsp

/-- C6: for T > 0, F ≥ 0 (and non-negative θ, Swe, dt and wind speeds), the saturation law
`Qt = Qinf·(1 − 0.14^(F/T))` satisfies `0 ≤ Qt ≤ Qinf`; and when `F/T = 50` and `Qinf > 0`,
`Qt / Qinf > 0.999`. -/
theorem saturation_bounds (T F theta Swe dt : ℝ) (speeds : List ℝ)
    (hT : 0 < T) (hF : 0 ≤ F) (hth : 0 ≤ theta) (hSwe : 0 ≤ Swe) (hdt : 0 ≤ dt)
    (hsp : ∀ u ∈ speeds, 0 ≤ u) :
    0 ≤ (compute_snow_transport T F theta Swe speeds dt).Qt ∧
    (compute_snow_transport T F theta Swe speeds dt).Qt ≤
      (compute_snow_transport T F theta Swe speeds dt).Qinf ∧
    (F = 50 * T → 0 < (compute_snow_transport T F theta Swe speeds dt).Qinf →
      0.999 < (compute_snow_transport T F theta Swe speeds dt).Qt /
        (compute_snow_transport T F theta Swe speeds dt).Qinf) := by
  have hQinf : 0 ≤ (compute_snow_transport T F theta Swe speeds dt).Qinf :=
    Qinf_nonneg T F theta Swe dt speeds hT.le hth hSwe hdt hsp
  have hxpos : 0 < (0.14:ℝ) ^ (F / T) := Real.rpow_pos_of_pos (by norm_num) _
  have hxle : (0.14:ℝ) ^ (F / T) ≤ 1 :=
    Real.rpow_le_one (by norm_num) (by norm_num) (div_nonneg hF hT.le)
  refine ⟨?_, ?_, ?_⟩
  · rw [Qt_eq_Qinf_mul]
    exact mul_nonneg hQinf (by linarith)
  · rw [Qt_eq_Qinf_mul]
    calc (compute_snow_transport T F theta Swe speeds dt).Qinf * (1 - (0.14:ℝ) ^ (F / T))
        ≤ (compute_snow_transport T F theta Swe speeds dt).Qinf * 1 :=
          mul_le_mul_of_nonneg_left (by linarith) hQinf
      _ = (compute_snow_transport T F theta Swe speeds dt).Qinf := mul_one _
  · intro hFT hpos
    rw [Qt_eq_Qinf_mul, mul_comm, mul_div_assoc, div_self hpos.ne', mul_one]
    have hT' : T ≠ 0 := ne_of_gt hT
    have h50 : F / T = (50:ℝ) := by
      rw [hFT, mul_div_assoc, div_self hT', mul_one]
    rw [h50]
    have hsmall : (0.14:ℝ) ^ (50:ℝ) < 0.001 := by
      rw [show ((50:ℝ)) = ((50:ℕ):ℝ) by norm_num, Real.rpow_natCast]
      norm_num
    linarith

/-- Witness for C6 at T = 1, F = 0, θ = 0, Swe = 0, speeds = [], dt = 3600. -/
theorem saturation_bounds_witness :
    (0:ℝ) < 1 ∧ (0:ℝ) ≤ 0 ∧ (0:ℝ) ≤ 0 ∧ (0:ℝ) ≤ 0 ∧ (0:ℝ) ≤ 3600 ∧
    (∀ u ∈ ([] : List ℝ), 0 ≤ u) ∧
    (0 ≤ (compute_snow_transport 1 0 0 0 [] 3600).Qt ∧
     (compute_snow_transport 1 0 0 0 [] 3600).Qt ≤
       (compute_snow_transport 1 0 0 0 [] 3600).Qinf ∧
     ((0:ℝ) = 50 * 1 → 0 < (compute_snow_transport 1 0 0 0 [] 3600).Qinf →
       0.999 < (compute_snow_transport 1 0 0 0 [] 3600).Qt /
         (compute_snow_transport 1 0 0 0 [] 3600).Qinf)) :=
  ⟨one_pos, le_refl 0, le_refl 0, le_refl 0, by norm_num, by simp,
   saturation_bounds 1 0 0 0 3600 [] one_pos (le_refl 0) (le_refl 0) (le_refl 0)
     (by norm_num) (by simp)⟩

/-! ### Sector sums (C4, C9) -/

lemma sum_set_getD_add (l : List ℝ) (i : ℕ) (q : ℝ) (h : i < l.length) :
    (l.set i (l.getD i 0 + q)).sum = l.sum + q := by
  induction l generalizing i with
  | nil => simp at h
  | cons a t ih =>
    cases i with
    | zero =>
      simp only [List.set, List.getD_cons_zero, List.sum_cons]
      ring
    | succ n =>
      simp only [List.set, List.getD_cons_succ, List.sum_cons]
      rw [ih n (by simpa using h)]
      ring

lemma sector_foldl_sum (dt : ℝ) (pairs : List (ℝ × ℝ)) (l : List ℝ) (hlen : l.length = 16) :
    (pairs.foldl
      (fun sectors ud =>
        sectors.set (sector_index ud.2).toNat
          (sectors.getD (sector_index ud.2).toNat 0 + ud.1 ^ (3.8 : ℝ) * dt / 233847)) l).sum
      = l.sum + (pairs.map (fun ud => ud.1 ^ (3.8 : ℝ) * dt / 233847)).sum := by
  induction pairs generalizing l with
  | nil => simp
  | cons p t ih =>
    have hidx : (sector_index p.2).toNat < l.length := by
      rw [hlen]
      have h0 := sector_index_nonneg p.2
      have h1 := sector_index_lt p.2
      omega
    simp only [List.foldl_cons, List.map_cons, List.sum_cons]
    rw [ih _ (by rw [List.length_set, hlen]),
        sum_set_getD_add l _ _ hidx]
    ring

lemma sum_map_div (l : List ℝ) (c : ℝ) : (l.map (fun x => x / c)).sum = l.sum / c := by
  induction l with
  | nil => simp
  | cons a t ih =>
    simp only [List.map_cons, List.sum_cons, ih]
    rw [add_div]

lemma sector_sum_eq (speeds dirs : List ℝ) (dt : ℝ) :
    (compute_sector_transport speeds dirs dt).sum =
      compute_Qupot ((speeds.zip dirs).map Prod.fst) dt := by
  unfold compute_sector_transport compute_Qupot
  rw [sector_foldl_sum dt _ _ (by simp)]
  rw [List.sum_replicate, List.map_map]
  have hmap : ((speeds.zip dirs).map (fun ud : ℝ × ℝ => ud.1 ^ (3.8 : ℝ) * dt / 233847)) =
      (((speeds.zip dirs).map ((fun u => u ^ (3.8 : ℝ) * dt) ∘ Prod.fst)).map
        (fun x => x / 233847)) := by
    rw [List.map_map]
    rfl
  rw [hmap, sum_map_div]
  simp

lemma map_fst_zip_eq_take (s : List ℝ) :
    ∀ d : List ℝ, (s.zip d).map Prod.fst = s.take (min s.length d.length) := by
  induction s with
  | nil => intro d; simp
  | cons a t ih =>
    intro d
    cases d with
    | nil => simp
    | cons b u =>
      simp only [List.zip_cons_cons, List.map_cons, List.length_cons, ih u]
      rw [Nat.succ_min_succ, List.take_succ_cons]

/-- C4: for equal-length lists of non-negative wind speeds and directions in [0,360), the sum
of the 16 entries of `compute_sector_transport` equals `compute_Qupot` exactly (the embedding
uses exact real arithmetic): both accumulate `(u^3.8·dt)/233847` over the same hours. -/
theorem sector_sum_eq_Qupot (speeds dirs : List ℝ) (dt : ℝ)
    (hlen : speeds.length = dirs.length)
    (hsp : ∀ u ∈ speeds, 0 ≤ u) (hdir : ∀ d ∈ dirs, 0 ≤ d ∧ d < 360) :
    (compute_sector_transport speeds dirs dt).sum = compute_Qupot speeds dt := by
  rw [sector_sum_eq, map_fst_zip_eq_take, hlen, min_self, ← hlen, List.take_length]

/-- Witness for C4 at speeds = [1], dirs = [0], dt = 3600. -/
theorem sector_sum_eq_Qupot_witness :
    ([(1:ℝ)].length = [(0:ℝ)].length) ∧ (∀ u ∈ ([1] : List ℝ), 0 ≤ u) ∧
    (∀ d ∈ ([0] : List ℝ), 0 ≤ d ∧ d < 360) ∧
    (compute_sector_transport [1] [0] 3600).sum = compute_Qupot [1] 3600 :=
  ⟨rfl, by norm_num, by norm_num,
   sector_sum_eq_Qupot [1] [0] 3600 rfl (by norm_num) (by norm_num)⟩

/-- C9: when the two lists have different lengths, `zip` truncates: the sector table
accumulates only the first `min(len(speeds), len(dirs))` pairs, while `compute_Qupot` on the
full speeds list counts every speed; so the sum of sectors equals `compute_Qupot` of the
truncated speeds list, and the sector-sum/Qupot identity is guaranteed only for equal
lengths. -/
theorem sector_sum_truncation (speeds dirs : List ℝ) (dt : ℝ) :
    (compute_sector_transport speeds dirs dt).sum =
      compute_Qupot (speeds.take (min speeds.length dirs.length)) dt := by
  rw [sector_sum_eq, map_fst_zip_eq_take]

/-! ### Season assignment (C8) -/

/-- A UTC timestamp at second resolution, as compared by pandas in
`compute_yearly_results` (chronological order is lexicographic on the fields). -/
structure Timestamp where
  year : ℤ
  month : ℤ
  day : ℤ
  hour : ℤ
  minute : ℤ
  second : ℤ

/-- Chronological (lexicographic) order on timestamps. -/
def Timestamp.le (a b : Timestamp) : Prop :=
  a.year < b.year ∨ (a.year = b.year ∧
    (a.month < b.month ∨ (a.month = b.month ∧
      (a.day < b.day ∨ (a.day = b.day ∧
        (a.hour < b.hour ∨ (a.hour = b.hour ∧
          (a.minute < b.minute ∨ (a.minute = b.minute ∧ a.second ≤ b.second)))))))))

instance (a b : Timestamp) : Decidable (Timestamp.le a b) := by
  unfold Timestamp.le
  infer_instance

/-- Number of days of a calendar month (29 for February, covering leap years). -/
def daysInMonth (m : ℤ) : ℤ :=
  if m = 2 then 29 else if m = 4 ∨ m = 6 ∨ m = 9 ∨ m = 11 then 30 else 31

/-- A calendar-valid timestamp. -/
def Timestamp.isValid (t : Timestamp) : Prop :=
  1 ≤ t.month ∧ t.month ≤ 12 ∧ 1 ≤ t.day ∧ t.day ≤ daysInMonth t.month ∧
  0 ≤ t.hour ∧ t.hour ≤ 23 ∧ 0 ≤ t.minute ∧ t.minute ≤ 59 ∧
  0 ≤ t.second ∧ t.second ≤ 59

instance (t : Timestamp) : Decidable t.isValid := by
  unfold Timestamp.isValid
  infer_instance

/-- Embedding of the season-assignment lambda (src/pages/8_snow_drift.py, line 135):
`dt.year if dt.month >= 7 else dt.year - 1`. -/
def season (t : Timestamp) : ℤ :=
  if 7 ≤ t.month then t.year else t.year - 1

/-- `pd.Timestamp(year=s, month=7, day=1, tz='UTC')` (line 109). -/
def seasonStart (s : ℤ) : Timestamp := ⟨s, 7, 1, 0, 0, 0⟩

/-- `pd.Timestamp(year=s+1, month=6, day=30, hour=23, minute=59, second=59, tz='UTC')`
(line 110). -/
def seasonEnd (s : ℤ) : Timestamp := ⟨s + 1, 6, 30, 23, 59, 59⟩

/-- The filter of `compute_yearly_results` (line 111):
`(df['time'] >= season_start) & (df['time'] <= season_end)`. -/
def inSeasonWindow (s : ℤ) (t : Timestamp) : Prop :=
  Timestamp.le (seasonStart s) t ∧ Timestamp.le t (seasonEnd s)

instance (s : ℤ) (t : Timestamp) : Decidable (inSeasonWindow s t) := by
  unfold inSeasonWindow
  infer_instance

/-- C8: every calendar-valid timestamp is assigned exactly one season label
(`Y = year` if `month ≥ 7`, `Y = year − 1` otherwise), and it lies in the window
`[July 1 Y 00:00, June 30 Y+1 23:59:59]` used by `compute_yearly_results` precisely for that
label — hence each timestamp lies in exactly one season window and distinct seasons'
windows are disjoint. -/
theorem season_window_iff (t : Timestamp) (hv : t.isValid) (s : ℤ) :
    inSeasonWindow s t ↔ season t = s := by
  obtain ⟨hm1, hm2, hd1, hd2, hh1, hh2, hmin1, hmin2, hs1, hs2⟩ := hv
  unfold daysInMonth at hd2
  unfold inSeasonWindow seasonStart seasonEnd season Timestamp.le
  simp only
  split_ifs at hd2 ⊢ <;> omega

/-- Witness for C8 at the timestamp 2021-07-01 00:00:00 and season 2021. -/
theorem season_window_iff_witness :
    (Timestamp.mk 2021 7 1 0 0 0).isValid ∧
    (inSeasonWindow 2021 (Timestamp.mk 2021 7 1 0 0 0) ↔
      season (Timestamp.mk 2021 7 1 0 0 0) = 2021) :=
  ⟨by decide, season_window_iff (Timestamp.mk 2021 7 1 0 0 0) (by decide) 2021⟩

/-! ### The duplicate copy of the model (C10) -/

/-- Embedding of `compute_Qupot` as defined inside `app()` in
src/pages/3_Advanced_Tools/1_Snow_drift.py (lines 61-62). -/
noncomputable def AdvancedTools.compute_Qupot (hourly_wind_speeds : List ℝ)
    (dt : ℝ := 3600) : ℝ :=
  (hourly_wind_speeds.map (fun u => u ^ (3.8 : ℝ) * dt)).sum / 233847

/-- Embedding of `compute_snow_transport` as defined inside `app()` in
src/pages/3_Advanced_Tools/1_Snow_drift.py (lines 74-86). -/
noncomputable def AdvancedTools.compute_snow_transport (T F theta Swe : ℝ)
    (hourly_wind_speeds : List ℝ) (dt : ℝ := 3600) : TransportResult :=
  let Qupot := AdvancedTools.compute_Qupot hourly_wind_speeds dt
  let Qspot := 0.5 * T * Swe
  let Srwe := theta * Swe
  let Qinf := if Qupot > Qspot then 0.5 * T * Srwe else Qupot
  let control := if Qupot > Qspot then "Snowfall controlled" else "Wind controlled"
  let Qt := Qinf * (1 - (0.14 : ℝ) ^ (F / T))
  { Qupot := Qupot, Qspot := Qspot, Srwe := Srwe,
    Qinf := Qinf, Qt := Qt, control := control }

/-- C10: the copy of the core model inside `app()` in
src/pages/3_Advanced_Tools/1_Snow_drift.py computes exactly the same results as the one in
src/pages/8_snow_drift.py, for every input. -/
theorem advanced_tools_copy_agrees (T F theta Swe dt : ℝ) (speeds : List ℝ) :
    AdvancedTools.compute_Qupot speeds dt = compute_Qupot speeds dt ∧
    AdvancedTools.compute_snow_transport T F theta Swe speeds dt =
      compute_snow_transport T F theta Swe speeds dt :=
  ⟨rfl, rfl⟩
